import Mathlib

/-!
Verification of the Video-Editor python service.

Embedded code:
  - src/python/app/utils.py      : segments_to_timeline_clips
  - src/python/app/main.py       : health, handle_transcribe
  - src/python/app/whisper_service.py : the external collaborator, modelled
    as an opaque field of the environment.

Python floats are modelled as rationals; `round(x, 3)` is modelled as
decimal rounding to 3 places with ties to even (CPython round-half-even).
Python `str.strip()` is modelled as dropping leading and trailing
whitespace characters from the character list of the string.
-/

namespace VideoEditor

/-! ## Model of python numeric and string primitives -/

/-- Floor of a rational as an integer, via flooring integer division. -/
def ratFloor (q : ℚ) : ℤ := Int.fdiv q.num (q.den : ℤ)

/-- Round a rational to the nearest integer, ties to even
(the rounding rule of CPython `round`). -/
def roundEven (q : ℚ) : ℤ :=
  let f := ratFloor q
  let r := q - (f : ℚ)
  if r < 1/2 then f
  else if 1/2 < r then f + 1
  else if f % 2 = 0 then f else f + 1

/-- Model of python `round(x, 3)`: round to 3 decimal places. -/
def pyRound3 (q : ℚ) : ℚ := (roundEven (q * 1000) : ℚ) / 1000

/-- Whitespace characters removed by python `str.strip()`
(space, tab, newline, carriage return, vertical tab, form feed). -/
def pyIsSpace (c : Char) : Bool :=
  c == ' ' || c == '\t' || c == '\n' || c == '\r' ||
  c == Char.ofNat 11 || c == Char.ofNat 12

/-- Model of python `str.strip()`: remove leading and trailing whitespace. -/
def pyStrip (s : String) : String :=
  String.mk (((s.data.dropWhile pyIsSpace).reverse.dropWhile pyIsSpace).reverse)

/-! ## Data model (src/python/app/utils.py) -/

/-- A transcription segment record as handed to the converter: a python dict
whose keys "start", "end" and "text" may each be absent.  -/
structure Segment where
  start? : Option ℚ
  endv? : Option ℚ
  text? : Option String
deriving DecidableEq

/-- Model of `seg.get("start", 0)`. -/
def Segment.startD (s : Segment) : ℚ := s.start?.getD 0

/-- Model of `seg.get("end", start)`. -/
def Segment.endD (s : Segment) : ℚ := s.endv?.getD s.startD

/-- Model of `seg.get("text", "")`. -/
def Segment.textD (s : Segment) : String := s.text?.getD ""

/-- A timeline subtitle clip record emitted by the converter. -/
structure Clip where
  start : ℚ
  duration : ℚ
  subtitleText : String
deriving DecidableEq

/-- The body of the loop of `segments_to_timeline_clips` for one segment:
`none` when the segment is skipped (`continue`), `some` the appended clip
otherwise.  Mirrors utils.py lines 9-25. -/
def clipOfSegment (seg : Segment) : Option Clip :=
  if pyRound3 (seg.endD - seg.startD) ≤ 0 then none
  else if pyStrip seg.textD = "" then none
  else some { start := pyRound3 seg.startD,
              duration := pyRound3 (seg.endD - seg.startD),
              subtitleText := pyStrip seg.textD }

/-- The function `segments_to_timeline_clips` of utils.py: the loop over the segments,
appending the clip of each non-skipped segment in order. -/
def segments_to_timeline_clips : List Segment → List Clip
  | [] => []
  | seg :: rest =>
    match clipOfSegment seg with
    | none => segments_to_timeline_clips rest
    | some c => c :: segments_to_timeline_clips rest

/-- Per-segment rule written from the words of the spec (section 4.2):
compute duration = round(end - start, 3); skip if duration <= 0; trim the
text, skip if empty after trim; emit the clip record. -/
def clipSpec (seg : Segment) : Option Clip :=
  let duration := pyRound3 (seg.endD - seg.startD)
  if duration ≤ 0 then none
  else
    let trimmed := pyStrip seg.textD
    if trimmed = "" then none
    else some { start := pyRound3 seg.startD, duration := duration,
                subtitleText := trimmed }

/-- A rational carries at most 3 decimal places. -/
def has3Decimals (q : ℚ) : Prop := (q * 1000).den = 1

instance (q : ℚ) : Decidable (has3Decimals q) := by
  unfold has3Decimals; infer_instance

/-! ## HTTP model (src/python/app/main.py) -/

/-- Model of `os.path.splitext(p)[1]` on posix paths: the suffix starting at
the last dot of the basename, empty when the basename has no dot located
after its leading dots. -/
def splitext_ext (s : String) : String :=
  let base := (s.data.reverse.takeWhile (fun c => !(c == '/'))).reverse
  let core := base.dropWhile (fun c => c == '.')
  if core.contains '.' then
    String.mk ('.' :: (core.reverse.takeWhile (fun c => !(c == '.'))).reverse)
  else ""

/-- Model of `os.path.splitext(uploaded.filename)[1] or ".mp4"` (main.py line 29). -/
def suffixOf (filename : String) : String :=
  if splitext_ext filename = "" then ".mp4" else splitext_ext filename

/-- A JSON value, for response bodies. -/
inductive Json where
  | str : String → Json
  | num : ℚ → Json
  | arr : List Json → Json
  | obj : List (String × Json) → Json

/-- A multipart file part (werkzeug FileStorage): only its filename matters
to the control flow of the handler. -/
structure FileStorage where
  filename : String
deriving DecidableEq

/-- The parts of the flask request the handler reads: `request.files` and
`request.form`, as association lists. -/
structure HttpRequest where
  files : List (String × FileStorage)
  form : List (String × String)
deriving DecidableEq

structure HttpResponse where
  status : Nat
  body : Json

/-- The process-wide whisper model cache (`_model` in whisper_service.py). -/
structure WhisperModel where
  name : String

/-- The only process-wide mutable state: the lazily loaded model. -/
abbrev ServerState := Option WhisperModel

def errorBody (msg : String) : Json := Json.obj [("error", Json.str msg)]

def clipToJson (c : Clip) : Json :=
  Json.obj [("start", Json.num c.start), ("duration", Json.num c.duration),
            ("subtitleText", Json.str c.subtitleText)]

/-- Endpoint `GET /health` (main.py lines 15-17): constant in the server state. -/
def health (_st : ServerState) : HttpResponse :=
  { status := 200, body := Json.obj [("status", Json.str "ok")] }

/-- The environment of one `POST /transcribe` request: the unique base name
handed out by `tempfile.NamedTemporaryFile` (directory plus random stem),
the outcome of `uploaded.save`, the behavior of the external `transcribe`
collaborator (whisper_service.py, opaque), and whether `os.unlink` raises
OSError.  A raised exception is represented by `Except.error` carrying
`str(exc)`. -/
structure Env where
  tmpBase : String
  saveResult : Except String Unit
  transcribe : String → Option String → Except String (List Segment)
  unlinkFails : Bool

/-- Model of `request.form.get("language", None) or None` (main.py line 35). -/
def languageOf (req : HttpRequest) : Option String :=
  match req.form.lookup "language" with
  | none => none
  | some s => if s = "" then none else some s

/-- What remains of the temporary file after the request: never created
(validation failed before `NamedTemporaryFile`), removed by the `finally`
block, or left behind because `os.unlink` raised (swallowed OSError). -/
inductive TempFileFate where
  | notCreated : TempFileFate
  | removed : String → TempFileFate
  | leftBehind : String → TempFileFate
deriving DecidableEq

/-- The fallible body of the `try` block up to the call of the collaborator:
`uploaded.save(tmp.name)` then `transcribe(tmp.name, language=language)`
(main.py lines 32-38).  The first exception wins. -/
def processingOutcome (req : HttpRequest) (env : Env) (filename : String) :
    Except String (List Segment) :=
  match env.saveResult with
  | Except.error m => Except.error m
  | Except.ok _ => env.transcribe (env.tmpBase ++ suffixOf filename) (languageOf req)

/-- Endpoint `POST /transcribe` (main.py lines 20-51): validation, temp file with the
suffix of the uploaded filename, try/except/finally, and the JSON response.
Returns the response together with the fate of the temporary file. -/
def handle_transcribe (req : HttpRequest) (env : Env) :
    HttpResponse × TempFileFate :=
  match req.files.lookup "file" with
  | none =>
    ({ status := 400,
       body := errorBody "No file provided. Send a file with key \x27file\x27." },
     TempFileFate.notCreated)
  | some uploaded =>
    if uploaded.filename = "" then
      ({ status := 400, body := errorBody "Empty filename." },
       TempFileFate.notCreated)
    else
      let tmpName := env.tmpBase ++ suffixOf uploaded.filename
      let fate := if env.unlinkFails then TempFileFate.leftBehind tmpName
                  else TempFileFate.removed tmpName
      match processingOutcome req env uploaded.filename with
      | Except.error msg =>
        ({ status := 500, body := errorBody ("Transcription failed: " ++ msg) },
         fate)
      | Except.ok segments =>
        let clips := segments_to_timeline_clips segments
        ({ status := 200,
           body := Json.obj
             [("clips", Json.arr (clips.map clipToJson)),
              ("segmentCount", Json.num (clips.length : ℚ))] },
         fate)

/-! ## Helper lemmas -/

theorem ratFloor_intCast (n : ℤ) : ratFloor (n : ℚ) = n := by
  unfold ratFloor
  simp

theorem roundEven_intCast (n : ℤ) : roundEven (n : ℚ) = n := by
  unfold roundEven
  rw [ratFloor_intCast]
  norm_num

theorem pyRound3_intCast (n : ℤ) : pyRound3 (n : ℚ) = (n : ℚ) := by
  unfold pyRound3
  have h : (n : ℚ) * 1000 = ((n * 1000 : ℤ) : ℚ) := by push_cast; ring
  rw [h, roundEven_intCast]
  push_cast
  field_simp

theorem pyRound3_int_div (n : ℤ) : pyRound3 ((n : ℚ) / 1000) = (n : ℚ) / 1000 := by
  unfold pyRound3
  have h : ((n : ℚ) / 1000) * 1000 = ((n : ℤ) : ℚ) := by field_simp
  rw [h, roundEven_intCast]

theorem pyRound3_zero : pyRound3 0 = 0 := by
  have h := pyRound3_intCast 0
  norm_num at h
  exact h

theorem has3Decimals_pyRound3 (q : ℚ) : has3Decimals (pyRound3 q) := by
  unfold has3Decimals pyRound3
  have h : ((roundEven (q * 1000) : ℤ) : ℚ) / 1000 * 1000
      = ((roundEven (q * 1000) : ℤ) : ℚ) := by field_simp
  rw [h]
  exact Rat.den_intCast _

/-- The loop of the converter is the filterMap of its per-segment body. -/
theorem stc_eq_filterMap (segs : List Segment) :
    segments_to_timeline_clips segs = segs.filterMap clipOfSegment := by
  induction segs with
  | nil => rfl
  | cons seg rest ih =>
    simp only [segments_to_timeline_clips, List.filterMap_cons]
    cases h : clipOfSegment seg <;> simp [h, ih]

/-- Characterization of a non-skipped segment. -/
theorem clipOfSegment_eq_some {seg : Segment} {c : Clip}
    (h : clipOfSegment seg = some c) :
    c.start = pyRound3 seg.startD ∧
    c.duration = pyRound3 (seg.endD - seg.startD) ∧
    0 < c.duration ∧
    c.subtitleText = pyStrip seg.textD ∧
    c.subtitleText ≠ "" := by
  unfold clipOfSegment at h
  split at h
  · simp at h
  · split at h
    · simp at h
    · rename_i hd ht
      cases h
      exact ⟨rfl, rfl, lt_of_not_le hd, rfl, ht⟩

/-! ## Claim theorems: the converter -/

/-- C1: for every list of segment records, segments_to_timeline_clips
processes the segments in input order and, for each segment, computes
duration = round(end - start, 3), skips the segment if duration <= 0, trims
the text and skips the segment if the trimmed text is empty, and otherwise
emits the clip record with start rounded to 3 places, the duration and the
trimmed text; the emitted clips appear in the same relative order as their
source segments.  Formally, the converter is the order-preserving filterMap
of the per-segment rule written from the words of the spec. -/
theorem converter_order_and_content (segs : List Segment) :
    segments_to_timeline_clips segs = segs.filterMap clipSpec := by
  rw [stc_eq_filterMap]
  rfl

/-- C2: every clip emitted by segments_to_timeline_clips has duration > 0
and a non-empty subtitleText; a segment violating either condition is
silently dropped (the converter is total, so no error is ever raised). -/
theorem converter_clip_invariant (segs : List Segment) (c : Clip)
    (hc : c ∈ segments_to_timeline_clips segs) :
    0 < c.duration ∧ c.subtitleText ≠ "" := by
  rw [stc_eq_filterMap] at hc
  obtain ⟨seg, _, hsome⟩ := List.mem_filterMap.mp hc
  obtain ⟨_, _, h3, _, h5⟩ := clipOfSegment_eq_some hsome
  exact ⟨h3, h5⟩

/-- Witness for C2 at a concrete input. -/
theorem converter_clip_invariant_witness :
    0 < (Clip.mk 0 1 "hi").duration ∧ (Clip.mk 0 1 "hi").subtitleText ≠ "" :=
  converter_clip_invariant [⟨some 0, some 1, some "hi"⟩] (Clip.mk 0 1 "hi") (by
    have hd : pyRound3 (1 : ℚ) = 1 := by
      have h := pyRound3_intCast 1
      norm_num at h
      exact h
    have hs : pyRound3 (0 : ℚ) = 0 := pyRound3_zero
    have ht : pyStrip "hi" = "hi" := by decide
    have hpos : ¬((1 : ℚ) ≤ 0) := by norm_num
    simp [segments_to_timeline_clips, clipOfSegment, Segment.startD, Segment.endD,
          Segment.textD, hd, hs, ht, hpos])

/-- C5: converting the same segment list twice yields identical output
(the converter is a pure function of its input). -/
theorem converter_idempotent (segs : List Segment) :
    segments_to_timeline_clips segs = segments_to_timeline_clips segs := rfl

/-- C6: every clip emitted by segments_to_timeline_clips has its start and
its duration rounded to exactly 3 decimal places: for some source segment,
start = round(start, 3) and duration = round(end - start, 3), and both
values are integer multiples of 1/1000. -/
theorem converter_rounding (segs : List Segment) (c : Clip)
    (hc : c ∈ segments_to_timeline_clips segs) :
    has3Decimals c.start ∧ has3Decimals c.duration ∧
      ∃ seg ∈ segs, c.start = pyRound3 seg.startD ∧
        c.duration = pyRound3 (seg.endD - seg.startD) := by
  rw [stc_eq_filterMap] at hc
  obtain ⟨seg, hseg, hsome⟩ := List.mem_filterMap.mp hc
  obtain ⟨h1, h2, _, _, _⟩ := clipOfSegment_eq_some hsome
  exact ⟨h1 ▸ has3Decimals_pyRound3 _, h2 ▸ has3Decimals_pyRound3 _,
    seg, hseg, h1, h2⟩

/-- Witness for C6 at a concrete input. -/
theorem converter_rounding_witness :
    has3Decimals (Clip.mk 2 3 "a").start ∧ has3Decimals (Clip.mk 2 3 "a").duration ∧
      ∃ seg ∈ [(⟨some 2, some 5, some " a "⟩ : Segment)],
        (Clip.mk 2 3 "a").start = pyRound3 seg.startD ∧
        (Clip.mk 2 3 "a").duration = pyRound3 (seg.endD - seg.startD) :=
  converter_rounding [⟨some 2, some 5, some " a "⟩] (Clip.mk 2 3 "a") (by
    have hd : pyRound3 ((5 : ℚ) - 2) = 3 := by
      have h := pyRound3_intCast 3
      norm_num at h ⊢
      exact h
    have hs : pyRound3 (2 : ℚ) = 2 := by
      have h := pyRound3_intCast 2
      norm_num at h
      exact h
    have ht : pyStrip " a " = "a" := by decide
    have hpos : ¬((3 : ℚ) ≤ 0) := by norm_num
    simp [segments_to_timeline_clips, clipOfSegment, Segment.startD, Segment.endD,
          Segment.textD, hd, hs, ht, hpos])

/-- C7: on the single segment with start 1.2, end 3.7 and text
" Hello world " the converter returns exactly one clip with start 1.2,
duration 2.5 and subtitleText "Hello world". -/
theorem converter_scenario_hello_world :
    segments_to_timeline_clips [⟨some (12/10), some (37/10), some " Hello world "⟩]
      = [⟨12/10, 25/10, "Hello world"⟩] := by
  have hd : pyRound3 ((37 : ℚ)/10 - 12/10) = 25/10 := by
    have h : ((37 : ℚ)/10 - 12/10) = ((2500 : ℤ) : ℚ) / 1000 := by norm_num
    rw [h, pyRound3_int_div]
    norm_num
  have hs : pyRound3 ((12 : ℚ)/10) = 12/10 := by
    have h : ((12 : ℚ)/10) = ((1200 : ℤ) : ℚ) / 1000 := by norm_num
    rw [h, pyRound3_int_div]
  have ht : pyStrip " Hello world " = "Hello world" := by decide
  have hpos : ¬((25 : ℚ)/10 ≤ 0) := by norm_num
  simp [segments_to_timeline_clips, clipOfSegment, Segment.startD, Segment.endD,
        Segment.textD, hd, hs, ht, hpos]

/-- C10: the converter is total on records with missing keys and raises
no exception: a record without "end" is dropped (its end defaults to its
start, so the duration is 0), a record without "text" is dropped (its text
defaults to the empty string), and a record without "start" behaves exactly
as one whose start is 0. -/
theorem converter_total_on_missing_keys (st e : Option ℚ) (t : Option String) :
    clipOfSegment ⟨st, none, t⟩ = none ∧
    clipOfSegment ⟨st, e, none⟩ = none ∧
    clipOfSegment ⟨none, e, t⟩ = clipOfSegment ⟨some 0, e, t⟩ := by
  refine ⟨?_, ?_, rfl⟩
  · have hend : (Segment.mk st none t).endD = (Segment.mk st none t).startD := rfl
    unfold clipOfSegment
    rw [hend, sub_self, pyRound3_zero]
    simp
  · have ht : (Segment.mk st e none).textD = "" := rfl
    have hstrip : pyStrip "" = "" := rfl
    unfold clipOfSegment
    rw [ht, hstrip]
    simp

/-! ## Claim theorems: the HTTP endpoint -/

/-- C8: every GET /health request returns status 200 with body
{"status": "ok"}, regardless of prior state. -/
theorem health_always_ok (st : ServerState) :
    health st = { status := 200, body := Json.obj [("status", Json.str "ok")] } :=
  rfl

/-- C3: a request without a "file" part gets 400 with the no-file message;
a request whose file has an empty filename gets 400 with "Empty filename.";
any failure during processing is caught generically and answered with 500
and the body consisting of the single field error = "Transcription failed: "
followed by the string representation of the exception — in particular the
body never carries a stack trace. -/
theorem transcribe_error_mapping (req : HttpRequest) (env : Env) :
    (req.files.lookup "file" = none →
      (handle_transcribe req env).1 =
        { status := 400,
          body := errorBody "No file provided. Send a file with key \x27file\x27." }) ∧
    (∀ u, req.files.lookup "file" = some u → u.filename = "" →
      (handle_transcribe req env).1 =
        { status := 400, body := errorBody "Empty filename." }) ∧
    (∀ u m, req.files.lookup "file" = some u → u.filename ≠ "" →
      processingOutcome req env u.filename = Except.error m →
      (handle_transcribe req env).1 =
        { status := 500, body := errorBody ("Transcription failed: " ++ m) }) := by
  refine ⟨fun h => ?_, fun u hu hname => ?_, fun u m hu hname herr => ?_⟩
  · simp [handle_transcribe, h]
  · simp [handle_transcribe, hu, hname]
  · simp [handle_transcribe, hu, hname, herr]

/-- Witness for C3: the three error answers at concrete requests. -/
theorem transcribe_error_mapping_witness :
    (handle_transcribe ⟨[], []⟩ ⟨"/tmp/u1", Except.ok (), fun _ _ => Except.error "boom", false⟩).1
      = { status := 400,
          body := errorBody "No file provided. Send a file with key \x27file\x27." } ∧
    (handle_transcribe ⟨[("file", ⟨""⟩)], []⟩
        ⟨"/tmp/u1", Except.ok (), fun _ _ => Except.error "boom", false⟩).1
      = { status := 400, body := errorBody "Empty filename." } ∧
    (handle_transcribe ⟨[("file", ⟨"a.mp4"⟩)], []⟩
        ⟨"/tmp/u1", Except.ok (), fun _ _ => Except.error "boom", false⟩).1
      = { status := 500, body := errorBody ("Transcription failed: " ++ "boom") } :=
  ⟨(transcribe_error_mapping ⟨[], []⟩ _).1 rfl,
   (transcribe_error_mapping ⟨[("file", ⟨""⟩)], []⟩ _).2.1 ⟨""⟩ rfl rfl,
   (transcribe_error_mapping ⟨[("file", ⟨"a.mp4"⟩)], []⟩ _).2.2 ⟨"a.mp4"⟩ "boom" rfl
     (by decide) rfl⟩

/-- C4: for every request that passes validation, the upload goes to a
temporary file named by the unique base and a suffix equal to the extension
of the original filename, with ".mp4" as fallback when the filename has no
extension; the unlink of that very file is attempted on every exit path —
success, handled error, or unexpected exception — with a failing unlink
swallowed, so when the unlink does not fail the file is gone after the
request. -/
theorem transcribe_tempfile_lifecycle (req : HttpRequest) (env : Env)
    (u : FileStorage)
    (hu : req.files.lookup "file" = some u) (hname : u.filename ≠ "") :
    ((handle_transcribe req env).2 =
      if env.unlinkFails then
        TempFileFate.leftBehind (env.tmpBase ++ suffixOf u.filename)
      else TempFileFate.removed (env.tmpBase ++ suffixOf u.filename)) ∧
    (splitext_ext u.filename ≠ "" → suffixOf u.filename = splitext_ext u.filename) ∧
    (splitext_ext u.filename = "" → suffixOf u.filename = ".mp4") ∧
    (env.unlinkFails = false →
      (handle_transcribe req env).2 =
        TempFileFate.removed (env.tmpBase ++ suffixOf u.filename)) := by
  have hmain : (handle_transcribe req env).2 =
      if env.unlinkFails then
        TempFileFate.leftBehind (env.tmpBase ++ suffixOf u.filename)
      else TempFileFate.removed (env.tmpBase ++ suffixOf u.filename) := by
    cases hps : processingOutcome req env u.filename <;>
      simp [handle_transcribe, hu, hname, hps]
  refine ⟨hmain, fun h => ?_, fun h => ?_, fun h => ?_⟩
  · simp [suffixOf, h]
  · simp [suffixOf, h]
  · rw [hmain, h]
    simp

/-- Witness for C4 at a concrete request. -/
theorem transcribe_tempfile_lifecycle_witness :
    ((handle_transcribe ⟨[("file", ⟨"clip.mov"⟩)], []⟩
        ⟨"/tmp/u2", Except.ok (), fun _ _ => Except.ok [], false⟩).2 =
      if (false : Bool) then
        TempFileFate.leftBehind ("/tmp/u2" ++ suffixOf "clip.mov")
      else TempFileFate.removed ("/tmp/u2" ++ suffixOf "clip.mov")) ∧
    (splitext_ext "clip.mov" ≠ "" → suffixOf "clip.mov" = splitext_ext "clip.mov") ∧
    (splitext_ext "clip.mov" = "" → suffixOf "clip.mov" = ".mp4") ∧
    ((false : Bool) = false →
      (handle_transcribe ⟨[("file", ⟨"clip.mov"⟩)], []⟩
        ⟨"/tmp/u2", Except.ok (), fun _ _ => Except.ok [], false⟩).2 =
        TempFileFate.removed ("/tmp/u2" ++ suffixOf "clip.mov")) :=
  transcribe_tempfile_lifecycle ⟨[("file", ⟨"clip.mov"⟩)], []⟩
    ⟨"/tmp/u2", Except.ok (), fun _ _ => Except.ok [], false⟩ ⟨"clip.mov"⟩
    rfl (by decide)

/-- C9: every 200 response of POST /transcribe carries segmentCount equal to
the number of elements of its clips array, i.e. the count after dropped
segments are removed, not the number of raw segments of the collaborator. -/
theorem transcribe_segment_count (req : HttpRequest) (env : Env)
    (u : FileStorage) (segs : List Segment)
    (hu : req.files.lookup "file" = some u) (hname : u.filename ≠ "")
    (hok : processingOutcome req env u.filename = Except.ok segs) :
    (handle_transcribe req env).1 =
      { status := 200,
        body := Json.obj
          [("clips", Json.arr ((segments_to_timeline_clips segs).map clipToJson)),
           ("segmentCount", Json.num ((segments_to_timeline_clips segs).length : ℚ))] } ∧
    ((segments_to_timeline_clips segs).map clipToJson).length
      = (segments_to_timeline_clips segs).length := by
  constructor
  · simp [handle_transcribe, hu, hname, hok]
  · simp

/-- Witness for C9: a concrete success whose raw segment list has two
entries of which one is dropped. -/
theorem transcribe_segment_count_witness :
    (handle_transcribe ⟨[("file", ⟨"v.mp4"⟩)], []⟩
        ⟨"/tmp/u3", Except.ok (),
         fun _ _ => Except.ok [⟨some 0, some 1, some "a"⟩, ⟨some 2, some 2, some "b"⟩],
         false⟩).1 =
      { status := 200,
        body := Json.obj
          [("clips", Json.arr ((segments_to_timeline_clips
              [⟨some 0, some 1, some "a"⟩, ⟨some 2, some 2, some "b"⟩]).map clipToJson)),
           ("segmentCount", Json.num ((segments_to_timeline_clips
              [⟨some 0, some 1, some "a"⟩, ⟨some 2, some 2, some "b"⟩]).length : ℚ))] } ∧
    ((segments_to_timeline_clips
        [⟨some 0, some 1, some "a"⟩, ⟨some 2, some 2, some "b"⟩]).map clipToJson).length
      = (segments_to_timeline_clips
          [⟨some 0, some 1, some "a"⟩, ⟨some 2, some 2, some "b"⟩]).length :=
  transcribe_segment_count ⟨[("file", ⟨"v.mp4"⟩)], []⟩
    ⟨"/tmp/u3", Except.ok (),
     fun _ _ => Except.ok [⟨some 0, some 1, some "a"⟩, ⟨some 2, some 2, some "b"⟩],
     false⟩ ⟨"v.mp4"⟩ _ rfl (by decide) rfl

end VideoEditor
